import Mathlib

/-
Verification development for the PythonGPTStock daily-review function app
(src/function_app.py).  The Python code is shallowly embedded: JSON-like
Python values become the inductive type `PyVal`, fallible attribute access
and iteration return `Except PyErr`, strings are Lean `String`s, and the
floating-point cost arithmetic is modelled over `ℚ` (the rate constants and
the 4-decimal rounding are exact at these magnitudes).
-/

set_option maxHeartbeats 1000000

/-- Python exception kinds that the rendering code can raise. -/
inductive PyErr where
  | attributeError
  | typeError
deriving DecidableEq

/-- Python/JSON values as produced by `json.loads` and consumed by the
renderer.  Python floats are modelled as exact rationals. -/
inductive PyVal where
  | none
  | bool (b : Bool)
  | int (n : Int)
  | float (q : ℚ)
  | str (s : String)
  | list (xs : List PyVal)
  | dict (kvs : List (String × PyVal))

/-- Python truthiness (`bool(v)`): `None`, `False`, zero, and empty
containers/strings are falsy. -/
def pyTruthy : PyVal → Bool
  | PyVal.none => false
  | PyVal.bool b => b
  | PyVal.int n => n != 0
  | PyVal.float q => q != 0
  | PyVal.str s => s != ""
  | PyVal.list xs => !xs.isEmpty
  | PyVal.dict kvs => !kvs.isEmpty

/-- `isinstance(v, dict)`. -/
def isDict : PyVal → Bool
  | PyVal.dict _ => true
  | _ => false

/-- Lookup in a Python dict (last binding wins, as in dicts built from
duplicate JSON keys). -/
def dictGet (kvs : List (String × PyVal)) (k : String) : Option PyVal :=
  (kvs.reverse.find? (fun kv => kv.1 == k)).map (fun kv => kv.2)

mutual

/-- Python `repr` of a value, used by `str()` on containers.  String
escaping inside `repr` is not modelled (the rendered report never depends
on it). -/
def pyRepr : PyVal → String
  | PyVal.none => "None"
  | PyVal.bool true => "True"
  | PyVal.bool false => "False"
  | PyVal.int n => toString n
  | PyVal.float q => toString q
  | PyVal.str s => "\x27" ++ s ++ "\x27"
  | PyVal.list xs => "[" ++ ", ".intercalate (pyReprList xs) ++ "]"
  | PyVal.dict kvs => "\x7b" ++ ", ".intercalate (pyReprEntries kvs) ++ "\x7d"

/-- `repr` of each element of a list. -/
def pyReprList : List PyVal → List String
  | [] => []
  | x :: xs => pyRepr x :: pyReprList xs

/-- `repr` of each `key: value` entry of a dict. -/
def pyReprEntries : List (String × PyVal) → List String
  | [] => []
  | (k, v) :: kvs => ("\x27" ++ k ++ "\x27: " ++ pyRepr v) :: pyReprEntries kvs

end

/-- Python `str()` as used by f-string interpolation. -/
def pyStr : PyVal → String
  | PyVal.str s => s
  | v => pyRepr v

/-- `v.get(k, d)`: dictionary lookup with default; on a non-dict value the
attribute access `.get` raises `AttributeError`. -/
def pyGetD (v : PyVal) (k : String) (d : PyVal) : Except PyErr PyVal :=
  match v with
  | PyVal.dict kvs => Except.ok ((dictGet kvs k).getD d)
  | _ => Except.error PyErr.attributeError

/-- `v.get(k)`: one-argument dict lookup (default `None`). -/
def pyGet1 (v : PyVal) (k : String) : Except PyErr PyVal :=
  pyGetD v k PyVal.none

/-- Python iteration (`for x in v`): lists yield elements, strings yield
one-character strings, dicts yield their keys; other values raise
`TypeError`. -/
def pyIter : PyVal → Except PyErr (List PyVal)
  | PyVal.list xs => Except.ok xs
  | PyVal.str s => Except.ok (s.toList.map (fun c => PyVal.str (String.mk [c])))
  | PyVal.dict kvs => Except.ok (kvs.map (fun kv => PyVal.str kv.1))
  | _ => Except.error PyErr.typeError

/-- The error notice emitted by `render_html_report` for empty or non-dict
input. -/
def error_notice : String :=
  "<p style=\x27color:red\x27>⚠️ Błąd: Nie udało się wygenerować raportu. Dane wejściowe są nieprawidłowe.</p>"

/-- The fixed category table `[(action, label, color), ...]` iterated by the
renderer, in source order. -/
def category_table : List (String × String × String) :=
  [("buy", "✅ Dokupienie", "green"),
   ("buy-new", "✅ Kupno", "green"),
   ("sell", "❌ Sprzedaż", "red"),
   ("hold", "🕒 Przetrzymanie", "gray")]

/-- The `<h3>` heading opening a recommendation subsection. -/
def cat_header (cat : String × String × String) : String :=
  "<h3 style=\x27color:" ++ cat.2.2 ++ "\x27>" ++ cat.2.1 ++ "</h3>"

/-- One `<li>` line for a recommendation entry
(`rec.get('company')`, `rec.get('symbol')`, `rec.get('reason')`). -/
def render_rec_line (rec : PyVal) : Except PyErr String :=
  match pyGet1 rec "company" with
  | Except.error e => Except.error e
  | Except.ok company =>
    match pyGet1 rec "symbol" with
    | Except.error e => Except.error e
    | Except.ok symbol =>
      match pyGet1 rec "reason" with
      | Except.error e => Except.error e
      | Except.ok reason =>
        Except.ok ("<li><b>" ++ pyStr company ++ "</b> <i>(" ++ pyStr symbol ++ ")</i> &mdash; " ++ pyStr reason ++ "</li>")

/-- The `<li>` lines for all entries of one category list. -/
def render_rec_items : List PyVal → Except PyErr (List String)
  | [] => Except.ok []
  | rec :: rest =>
    match render_rec_line rec with
    | Except.error e => Except.error e
    | Except.ok line =>
      match render_rec_items rest with
      | Except.error e => Except.error e
      | Except.ok more => Except.ok (line :: more)

/-- One iteration of the category loop:
`items = data.get("recommendations", {}).get(action, [])`, and if `items`
is truthy, a heading, `<ul>`, the item lines and `</ul>`. -/
def render_category (data : PyVal) (cat : String × String × String) : Except PyErr (List String) :=
  match pyGetD data "recommendations" (PyVal.dict []) with
  | Except.error e => Except.error e
  | Except.ok recsV =>
    match pyGetD recsV cat.1 (PyVal.list []) with
    | Except.error e => Except.error e
    | Except.ok itemsV =>
      if pyTruthy itemsV then
        match pyIter itemsV with
        | Except.error e => Except.error e
        | Except.ok items =>
          match render_rec_items items with
          | Except.error e => Except.error e
          | Except.ok lines => Except.ok (cat_header cat :: "<ul>" :: (lines ++ ["</ul>"]))
      else Except.ok []

/-- The whole category loop over `category_table`. -/
def render_categories (data : PyVal) : List (String × String × String) → Except PyErr (List String)
  | [] => Except.ok []
  | cat :: rest =>
    match render_category data cat with
    | Except.error e => Except.error e
    | Except.ok ls =>
      match render_categories data rest with
      | Except.error e => Except.error e
      | Except.ok more => Except.ok (ls ++ more)

/-- The lines for one analysis entry: heading with company/symbol, `<ul>`,
one `<li>` per highlight, `</ul>`. -/
def stock_lines (stock : PyVal) : Except PyErr (List String) :=
  match pyGet1 stock "company" with
  | Except.error e => Except.error e
  | Except.ok company =>
    match pyGet1 stock "symbol" with
    | Except.error e => Except.error e
    | Except.ok symbol =>
      match pyGetD stock "highlights" (PyVal.list []) with
      | Except.error e => Except.error e
      | Except.ok hlV =>
        match pyIter hlV with
        | Except.error e => Except.error e
        | Except.ok points =>
          Except.ok (("<h3><b>" ++ pyStr company ++ "</b> <i>(" ++ pyStr symbol ++ ")</i></h3>") :: "<ul>" :: (points.map (fun point => "<li>" ++ pyStr point ++ "</li>") ++ ["</ul>"]))

/-- The analysis loop over `data.get("analysis", [])`. -/
def render_analysis : List PyVal → Except PyErr (List String)
  | [] => Except.ok []
  | stock :: rest =>
    match stock_lines stock with
    | Except.error e => Except.error e
    | Except.ok ls =>
      match render_analysis rest with
      | Except.error e => Except.error e
      | Except.ok more => Except.ok (ls ++ more)

/-- The notes block appended when `data.get("notes")` is truthy. -/
def notes_block (notes : PyVal) : String :=
  "<hr><div style=\x27background-color:#f0f8ff;border-left:4px solid #4169e1;padding:15px;margin:10px 0\x27><h3 style=\x27color:#4169e1;margin-top:0\x27>📝 Notatki i Sentyment Rynku</h3><p style=\x27margin:0;font-size:14px;line-height:1.6\x27>" ++ pyStr notes ++ "</p></div>"

/-- `render_html_report`, before the final `"\n".join`: the list of lines
accumulated in the `html` variable, or the Python exception raised. -/
def render_html_lines (data : PyVal) : Except PyErr (List String) :=
  if !pyTruthy data || !isDict data then Except.ok [error_notice]
  else
    match render_categories data category_table with
    | Except.error e => Except.error e
    | Except.ok recLines =>
      match pyGetD data "analysis" (PyVal.list []) with
      | Except.error e => Except.error e
      | Except.ok anaV =>
        match pyIter anaV with
        | Except.error e => Except.error e
        | Except.ok stocks =>
          match render_analysis stocks with
          | Except.error e => Except.error e
          | Except.ok anaLines =>
            match pyGet1 data "notes" with
            | Except.error e => Except.error e
            | Except.ok notesV =>
              Except.ok ("<h2>📌 Rekomendacje na dziś</h2>" :: recLines
                ++ "<hr><h2>📊 Analiza spółek</h2>" :: anaLines
                ++ (if pyTruthy notesV then [notes_block notesV] else []))

/-- `render_html_report(data)`: the joined HTML string, or the Python
exception raised. -/
def render_html_report (data : PyVal) : Except PyErr String :=
  match render_html_lines data with
  | Except.error e => Except.error e
  | Except.ok ls => Except.ok ("\n".intercalate ls)

/-- ASCII whitespace, the set skipped by the JSON grammar; Python
`str.strip()` is modelled on the same set. -/
def isWS (c : Char) : Bool :=
  c == ' ' || c == Char.ofNat 9 || c == Char.ofNat 10 || c == Char.ofNat 13

/-- Drop leading whitespace. -/
def skipWS : List Char → List Char
  | [] => []
  | c :: cs => if isWS c then skipWS cs else c :: cs

/-- Strip whitespace from both ends of a character list. -/
def stripL (l : List Char) : List Char :=
  ((l.dropWhile isWS).reverse.dropWhile isWS).reverse

/-- Python `s.strip()`. -/
def pyStrip (s : String) : String := String.mk (stripL s.toList)

/-- Python `s.startswith(pre)`. -/
def pyStartsWith (s pre : String) : Bool := pre.toList.isPrefixOf s.toList

/-- Python `s.endswith(suf)`. -/
def pyEndsWith (s suf : String) : Bool := suf.toList.isSuffixOf s.toList

/-- Python `s[n:]`. -/
def pyDrop (s : String) (n : Nat) : String := String.mk (s.toList.drop n)

/-- Python `s[:-n]`. -/
def pyDropLast (s : String) (n : Nat) : String :=
  String.mk (s.toList.take (s.toList.length - n))

/-- Hexadecimal digit value, for `\u` escapes. -/
def hexVal (c : Char) : Option Nat :=
  if '0' ≤ c && c ≤ '9' then some (c.toNat - 48)
  else if 'a' ≤ c && c ≤ 'f' then some (c.toNat - 87)
  else if 'A' ≤ c && c ≤ 'F' then some (c.toNat - 55)
  else Option.none

/-- JSON single-character escapes. -/
def escChar (e : Char) : Option Char :=
  if e == '"' then some '"'
  else if e == '\\' then some '\\'
  else if e == '/' then some '/'
  else if e == 'b' then some (Char.ofNat 8)
  else if e == 'f' then some (Char.ofNat 12)
  else if e == 'n' then some (Char.ofNat 10)
  else if e == 'r' then some (Char.ofNat 13)
  else if e == 't' then some (Char.ofNat 9)
  else Option.none

/-- Scan a JSON string body after the opening quote; returns the decoded
characters and the remainder after the closing quote.  Fuelled by the
input length; surrogate pairs are modelled as single code points. -/
def parseStringLoop : Nat → List Char → Option (List Char × List Char)
  | 0, _ => Option.none
  | _, [] => Option.none
  | Nat.succ fuel, c :: cs =>
    if c == '"' then some ([], cs)
    else if c == '\\' then
      match cs with
      | [] => Option.none
      | e :: cs2 =>
        if e == 'u' then
          match cs2 with
          | a :: b :: c3 :: d :: cs3 =>
            match hexVal a, hexVal b, hexVal c3, hexVal d with
            | some ha, some hb, some hc, some hd =>
              match parseStringLoop fuel cs3 with
              | some p => some (Char.ofNat (((ha * 16 + hb) * 16 + hc) * 16 + hd) :: p.1, p.2)
              | Option.none => Option.none
            | _, _, _, _ => Option.none
          | _ => Option.none
        else
          match escChar e with
          | some ec =>
            match parseStringLoop fuel cs2 with
            | some p => some (ec :: p.1, p.2)
            | Option.none => Option.none
          | Option.none => Option.none
    else if c.toNat < 32 then Option.none
    else
      match parseStringLoop fuel cs with
      | some p => some (c :: p.1, p.2)
      | Option.none => Option.none

/-- JSON string body parse (fuel instantiated). -/
def parseStringBody (cs : List Char) : Option (List Char × List Char) :=
  parseStringLoop (cs.length + 1) cs

/-- Take the maximal run of decimal digits. -/
def takeDigits : List Char → List Char × List Char
  | [] => ([], [])
  | c :: cs =>
    if c.isDigit then
      let p := takeDigits cs
      (c :: p.1, p.2)
    else ([], c :: cs)

/-- Decimal digits to a natural number. -/
def digitsToNat (ds : List Char) : Nat :=
  ds.foldl (fun acc c => acc * 10 + (c.toNat - 48)) 0

/-- Exponent tail of a JSON number, after the `e`/`E`. -/
def parseExpTail (cs : List Char) : Option (Option Int × List Char) :=
  let signed : Bool × List Char :=
    match cs with
    | '+' :: rest => (false, rest)
    | '-' :: rest => (true, rest)
    | _ => (false, cs)
  let p := takeDigits signed.2
  if p.1.isEmpty then Option.none
  else
    let n : Int := digitsToNat p.1
    some (some (if signed.1 then -n else n), p.2)

/-- JSON number literal.  Integer literals become Python ints; literals
with a fraction or exponent become floats, modelled as exact rationals. -/
def parseNumber (cs : List Char) : Option (PyVal × List Char) :=
  let signed : Bool × List Char :=
    match cs with
    | '-' :: rest => (true, rest)
    | _ => (false, cs)
  let neg := signed.1
  let intPart := takeDigits signed.2
  let ds := intPart.1
  let cs2 := intPart.2
  if ds.isEmpty then Option.none
  else if 1 < ds.length && ds.headD '0' == '0' then Option.none
  else
    let fracPart : Option (List Char × List Char) :=
      match cs2 with
      | '.' :: rest =>
        let p := takeDigits rest
        if p.1.isEmpty then Option.none else some (p.1, p.2)
      | _ => some ([], cs2)
    match fracPart with
    | Option.none => Option.none
    | some (fds, cs3) =>
      let expPart : Option (Option Int × List Char) :=
        match cs3 with
        | 'e' :: rest => parseExpTail rest
        | 'E' :: rest => parseExpTail rest
        | _ => some (Option.none, cs3)
      match expPart with
      | Option.none => Option.none
      | some (expv, cs4) =>
        let i : Nat := digitsToNat ds
        match fds, expv with
        | [], Option.none =>
          some (PyVal.int (if neg then -(i : Int) else (i : Int)), cs4)
        | _, _ =>
          let mant : ℚ := (i : ℚ) + (digitsToNat fds : ℚ) / ((10 : ℚ) ^ fds.length)
          let e : Int := expv.getD 0
          some (PyVal.float ((if neg then -mant else mant) * (10 : ℚ) ^ e), cs4)

mutual

/-- One JSON value, fuelled. -/
def parseValue : Nat → List Char → Option (PyVal × List Char)
  | 0, _ => Option.none
  | Nat.succ fuel, cs =>
    match skipWS cs with
    | [] => Option.none
    | c :: rest =>
      if c == '\x7b' then
        match skipWS rest with
        | '\x7d' :: rest2 => some (PyVal.dict [], rest2)
        | _ =>
          match parseMembers fuel rest with
          | some p => some (PyVal.dict p.1, p.2)
          | Option.none => Option.none
      else if c == '[' then
        match skipWS rest with
        | ']' :: rest2 => some (PyVal.list [], rest2)
        | _ =>
          match parseElements fuel rest with
          | some p => some (PyVal.list p.1, p.2)
          | Option.none => Option.none
      else if c == '"' then
        match parseStringBody rest with
        | some p => some (PyVal.str (String.mk p.1), p.2)
        | Option.none => Option.none
      else if c == 't' then
        match rest with
        | 'r' :: 'u' :: 'e' :: rest2 => some (PyVal.bool true, rest2)
        | _ => Option.none
      else if c == 'f' then
        match rest with
        | 'a' :: 'l' :: 's' :: 'e' :: rest2 => some (PyVal.bool false, rest2)
        | _ => Option.none
      else if c == 'n' then
        match rest with
        | 'u' :: 'l' :: 'l' :: rest2 => some (PyVal.none, rest2)
        | _ => Option.none
      else if c == '-' || c.isDigit then parseNumber (c :: rest)
      else Option.none

/-- Nonempty member list of a JSON object, up to and including the
closing brace. -/
def parseMembers : Nat → List Char → Option (List (String × PyVal) × List Char)
  | 0, _ => Option.none
  | Nat.succ fuel, cs =>
    match skipWS cs with
    | '"' :: rest =>
      match parseStringBody rest with
      | some kp =>
        match skipWS kp.2 with
        | ':' :: rest3 =>
          match parseValue fuel rest3 with
          | some vp =>
            match skipWS vp.2 with
            | ',' :: rest5 =>
              match parseMembers fuel rest5 with
              | some mp => some ((String.mk kp.1, vp.1) :: mp.1, mp.2)
              | Option.none => Option.none
            | '\x7d' :: rest5 => some ([(String.mk kp.1, vp.1)], rest5)
            | _ => Option.none
          | Option.none => Option.none
        | _ => Option.none
      | Option.none => Option.none
    | _ => Option.none

/-- Nonempty element list of a JSON array, up to and including the
closing bracket. -/
def parseElements : Nat → List Char → Option (List PyVal × List Char)
  | 0, _ => Option.none
  | Nat.succ fuel, cs =>
    match parseValue fuel cs with
    | some vp =>
      match skipWS vp.2 with
      | ',' :: rest2 =>
        match parseElements fuel rest2 with
        | some ep => some (vp.1 :: ep.1, ep.2)
        | Option.none => Option.none
      | ']' :: rest2 => some ([vp.1], rest2)
      | _ => Option.none
    | Option.none => Option.none

end

/-- Python `json.loads`: parse after stripping surrounding whitespace, and
reject trailing garbage.  The `NaN`/`Infinity` extensions are not
modelled; floats are exact rationals. -/
def json_loads (s : String) : Option PyVal :=
  match parseValue ((stripL s.toList).length + 1) (stripL s.toList) with
  | some p => if (skipWS p.2).isEmpty then some p.1 else Option.none
  | Option.none => Option.none

/-- `json_text = json_text[7:]` / `json_text[3:]`: remove the leading
```` ```json ```` (or bare ```` ``` ````) marker. -/
def strip_leading_fence (s1 : String) : String :=
  if pyStartsWith s1 "```json" then pyDrop s1 7
  else if pyStartsWith s1 "```" then pyDrop s1 3
  else s1

/-- `json_text = json_text[:-3]` when the text ends with ```` ``` ````. -/
def strip_trailing_fence (s2 : String) : String :=
  if pyEndsWith s2 "```" then pyDropLast s2 3 else s2

/-- The markdown code-fence preprocessing at the top of
`parse_result_to_json`: if the stripped text starts with a triple
backtick, strip, remove the leading ```` ```json ````/```` ``` ````
marker and a trailing ```` ``` ```` marker, and strip again. -/
def strip_fences (json_text : String) : String :=
  if pyStartsWith (pyStrip json_text) "```" then
    pyStrip (strip_trailing_fence (strip_leading_fence (pyStrip json_text)))
  else json_text

/-- `parse_result_to_json(json_text)`: fence-strip, then `json.loads`,
returning `{}` when parsing fails (the bare `except` branch). -/
def parse_result_to_json (json_text : String) : PyVal :=
  match json_loads (strip_fences json_text) with
  | some v => v
  | Option.none => PyVal.dict []

/-- Wrapping a text in a markdown code fence: ```` ```json ```` on the
first line, the text, then ```` ``` ```` on the last line. -/
def fenced (t : String) : String := "```json\n" ++ t ++ "\n```"

/-- `cost_input = prompt_tokens * 2.50 / 1_000_000` (dollars per token,
GPT-4o input pricing), exact over `ℚ`. -/
def cost_input (prompt_tokens : Nat) : ℚ := (prompt_tokens : ℚ) * (2.50 : ℚ) / 1000000

/-- `cost_output = completion_tokens * 10.00 / 1_000_000`. -/
def cost_output (completion_tokens : Nat) : ℚ := (completion_tokens : ℚ) * (10.00 : ℚ) / 1000000

/-- Round to the nearest integer, ties to even — Python `round` semantics
(binary floating-point representation effects are not modelled). -/
def pyRoundHalfEven (y : ℚ) : ℤ :=
  let f : ℤ := ⌊y⌋
  let r : ℚ := y - (f : ℚ)
  if r < 1/2 then f
  else if 1/2 < r then f + 1
  else if f % 2 = 0 then f else f + 1

/-- Python `round(x, 4)`. -/
def pyRound4 (x : ℚ) : ℚ := ((pyRoundHalfEven (x * 10000) : ℤ) : ℚ) / 10000

/-- `total_cost = round(cost_input + cost_output, 4)`, the cost accountant
of `querymodel`. -/
def total_cost (prompt_tokens completion_tokens : Nat) : ℚ :=
  pyRound4 (cost_input prompt_tokens + cost_output completion_tokens)

/-- Values living in a `result.metadata` dictionary: nested dicts, lists,
`None`, a usage object (whose token attributes may be absent, modelling
the `hasattr` check), or anything else. -/
inductive MVal where
  | none
  | mdict (kvs : List (String × MVal))
  | mlist (xs : List MVal)
  | usageObj (tokenFields : Option (Nat × Nat))
  | other

/-- Dict lookup over metadata values. -/
def mdictGet (kvs : List (String × MVal)) (k : String) : Option MVal :=
  (kvs.reverse.find? (fun kv => kv.1 == k)).map (fun kv => kv.2)

/-- The usage value reached by `querymodel`:
`metadata = result.metadata or {}`, `inner = metadata.get("metadata", {})`,
first element if `inner` is a nonempty list, then
`inner.get("usage", None)` if `inner` is a dict else `None`. -/
def usage_of (md : Option (List (String × MVal))) : MVal :=
  let metadata := md.getD []
  let inner0 := (mdictGet metadata "metadata").getD (MVal.mdict [])
  let inner :=
    match inner0 with
    | MVal.mlist (x :: _) => x
    | v => v
  match inner with
  | MVal.mdict kvs => (mdictGet kvs "usage").getD MVal.none
  | _ => MVal.none

/-- `usage and hasattr(usage, 'prompt_tokens')`. -/
def has_token_fields : MVal → Bool
  | MVal.usageObj (some _) => true
  | _ => false

/-- The token counters used by `querymodel`: the usage object's counters
when present, else `(0, 0)`. -/
def extract_tokens (md : Option (List (String × MVal))) : Nat × Nat :=
  match usage_of md with
  | MVal.usageObj (some pc) => pc
  | _ => (0, 0)

/-- The fixed model deployment name interpolated into the email footer. -/
def MODEL_DEPLOYMENT_NAME : String := "gpt-5.2-chat"

/-- Python `str()` of a rounded cost float, for values with at most four
decimal places: decimal digits with trailing zeros trimmed, at least one
fractional digit. -/
def pyFloatStr (q : ℚ) : String :=
  let sign := if q < 0 then "-" else ""
  let aq := |q|
  let ip : Nat := ⌊aq⌋.toNat
  let f4 : Nat := ⌊(aq - (ip : ℚ)) * 10000⌋.toNat
  let ds := Nat.toDigits 10 f4
  let padded := List.replicate (4 - ds.length) '0' ++ ds
  let trimmed := (padded.reverse.dropWhile (fun c => c == '0')).reverse
  sign ++ toString ip ++ "." ++ String.mk (if trimmed.isEmpty then ['0'] else trimmed)

/-- The warning paragraph `send_report` prepends for an empty or too-short
report body. -/
def empty_warning_str (correlation_id : String) : String :=
  "<p style=\x27color:red;font-weight:bold\x27>⚠️ Raport może być niepełny. Sprawdź logi w Application Insights dla ID: " ++ correlation_id ++ "</p>"

/-- The cost/diagnostic footer `send_report` appends to every email. -/
def cost_note_str (prompt_tokens completion_tokens : Nat) (total_cost : ℚ) (correlation_id : String) : String :=
  "<hr><p style=\x27font-size:small;color:gray\x27>🔍 Wykorzystano " ++ toString prompt_tokens ++ " tokenów promptu, " ++ toString completion_tokens ++ " tokenów odpowiedzi (łącznie: " ++ toString (prompt_tokens + completion_tokens) ++ " tokenów).<br>💸 Szacunkowy koszt: <b>$" ++ pyFloatStr total_cost ++ "</b> (" ++ MODEL_DEPLOYMENT_NAME ++ ").<br>📋 Correlation ID: " ++ correlation_id ++ "</p>"

/-- The email body assembled by `send_report`: an optional emptiness
warning, the rendered body, and the cost footer. -/
def final_email_body (html_body : String) (prompt_tokens completion_tokens : Nat) (total_cost : ℚ) (correlation_id : String) : String :=
  let empty_warning :=
    if html_body == "" || (pyStrip html_body).length < 50 then empty_warning_str correlation_id
    else ""
  empty_warning ++ html_body ++ cost_note_str prompt_tokens completion_tokens total_cost correlation_id

/-- The HTTP trigger `run_review_http`, as a function of the pipeline
outcome (`asyncio.run(run_daily_review())` completing, or raising an
exception with the given textual description): the status code and body
of the `func.HttpResponse`. -/
def run_review_http (outcome : Except String Unit) : Nat × String :=
  match outcome with
  | Except.ok _ => (200, "✅ Daily report has been manually triggered.")
  | Except.error e => (500, "❌ Error while triggering daily report: " ++ e)

/-- A recommendation-category value of the documented schema: a list of
(dict) entries. -/
def recListOK : PyVal → Bool
  | PyVal.list xs => xs.all isDict
  | _ => false

/-- A `recommendations` value of the documented schema: a dict mapping
category names to lists of entries. -/
def recsOK : PyVal → Bool
  | PyVal.dict kvs => kvs.all (fun kv => recListOK kv.2)
  | _ => false

/-- An `analysis` entry of the documented schema: a dict whose
`highlights`, if present, is a list. -/
def stockOK : PyVal → Bool
  | PyVal.dict kvs =>
    match dictGet kvs "highlights" with
    | some (PyVal.list _) => true
    | some _ => false
    | Option.none => true
  | _ => false

/-- An `analysis` value of the documented schema: a list of entries. -/
def analysisOK : PyVal → Bool
  | PyVal.list xs => xs.all stockOK
  | _ => false

/-- A well-formed input dict for the renderer: the `recommendations` and
`analysis` fields, when present, have the documented shapes. -/
def schemaOK : PyVal → Bool
  | PyVal.dict kvs =>
    (match dictGet kvs "recommendations" with
     | some v => recsOK v
     | Option.none => true) &&
    (match dictGet kvs "analysis" with
     | some v => analysisOK v
     | Option.none => true)
  | _ => false

/-- The category list the renderer ends up iterating for one action name:
`data.get("recommendations", {}).get(action, [])` (for dict-shaped
recommendation data). -/
def category_items (data : PyVal) (action : String) : PyVal :=
  match data with
  | PyVal.dict kvs =>
    match (dictGet kvs "recommendations").getD (PyVal.dict []) with
    | PyVal.dict rs => (dictGet rs action).getD (PyVal.list [])
    | _ => PyVal.list []
  | _ => PyVal.list []

/-- A rendered line opening a recommendation-category subsection. -/
def isCatHeader (l : String) : Bool := pyStartsWith l "<h3 style="

/-! Helper lemmas. -/

theorem string_append_empty (s : String) : s ++ "" = s := by
  cases s
  simp [String.append]

theorem string_empty_append (s : String) : "" ++ s = s := by
  cases s
  simp [String.append]

/-- Claim C1 (counterexample): under the code's rate table the cost of
1000 prompt and 1000 completion tokens is not the 0.04 the claim states. -/
theorem c1_counterexample : total_cost 1000 1000 ≠ (4 : ℚ)/100 := by
  norm_num [total_cost, pyRound4, pyRoundHalfEven, cost_input, cost_output]

/-- Claim C1 (amended): `total_cost 0 0 = 0`; under the code's rate table
($2.50 per 1M prompt tokens, $10.00 per 1M completion tokens)
`total_cost 1000 1000 = 0.0125`; and for every pair of token counts the
result is an integer multiple of 1/10000, i.e. rounded to 4 decimal
places. -/
theorem c1_cost_accountant :
    total_cost 0 0 = 0 ∧
    total_cost 1000 1000 = (125 : ℚ)/10000 ∧
    ∀ p c : Nat, ∃ n : ℤ, total_cost p c = (n : ℚ)/10000 := by
  refine ⟨?_, ?_, fun p c => ⟨pyRoundHalfEven ((cost_input p + cost_output c) * 10000), rfl⟩⟩
  · norm_num [total_cost, pyRound4, pyRoundHalfEven, cost_input, cost_output]
  · norm_num [total_cost, pyRound4, pyRoundHalfEven, cost_input, cost_output]

/-- Claim C5: for empty or non-dict input the renderer returns exactly the
single error-notice fragment and raises nothing. -/
theorem c5_error_notice (d : PyVal) (h : pyTruthy d = false ∨ isDict d = false) :
    render_html_report d = Except.ok error_notice := by
  rcases h with h | h <;>
    simp [render_html_report, render_html_lines, h] <;> rfl

/-- Claim C5 witness: the error notice is returned for `None`, the empty
string and the empty dict. -/
theorem c5_witness :
    render_html_report PyVal.none = Except.ok error_notice ∧
    render_html_report (PyVal.str "") = Except.ok error_notice ∧
    render_html_report (PyVal.dict []) = Except.ok error_notice :=
  ⟨c5_error_notice PyVal.none (Or.inl rfl),
   c5_error_notice (PyVal.str "") (Or.inl rfl),
   c5_error_notice (PyVal.dict []) (Or.inl rfl)⟩

/-- Claim C8: when the usage object is absent or lacks the token
attributes, both counters are substituted by zero (no exception is
possible: the extraction is a total function), and the computed cost at
zero tokens is 0.0. -/
theorem c8_missing_usage (md : Option (List (String × MVal)))
    (h : has_token_fields (usage_of md) = false) :
    extract_tokens md = (0, 0) ∧ total_cost 0 0 = 0 := by
  refine ⟨?_, by norm_num [total_cost, pyRound4, pyRoundHalfEven, cost_input, cost_output]⟩
  unfold extract_tokens
  rcases hu : usage_of md with _ | kvs | xs | tf | _ <;>
    first
    | rfl
    | (rcases tf with _ | pc
       · rfl
       · rw [hu] at h
         simp [has_token_fields] at h)

/-- Claim C8 witness: a `result.metadata` of `None` yields zero counters
and zero cost. -/
theorem c8_witness :
    has_token_fields (usage_of Option.none) = false ∧
    extract_tokens Option.none = (0, 0) ∧ total_cost 0 0 = 0 :=
  ⟨rfl, (c8_missing_usage Option.none rfl).1, (c8_missing_usage Option.none rfl).2⟩

/-- Claim C9: the HTTP trigger returns 200 with the literal success string
when the run completes, and 500 with a message embedding the exception's
textual description when the run raises. -/
theorem c9_http_trigger :
    run_review_http (Except.ok ()) = (200, "✅ Daily report has been manually triggered.") ∧
    ∀ e : String,
      run_review_http (Except.error e) = (500, "❌ Error while triggering daily report: " ++ e) ∧
      ∃ pre suf : String, (run_review_http (Except.error e)).2 = pre ++ e ++ suf := by
  refine ⟨rfl, fun e => ⟨rfl, ⟨"❌ Error while triggering daily report: ", "", ?_⟩⟩⟩
  simp [run_review_http, string_append_empty]

/-- Claim C9 witness: concrete success and failure responses. -/
theorem c9_witness :
    run_review_http (Except.ok ()) = (200, "✅ Daily report has been manually triggered.") ∧
    run_review_http (Except.error "boom") = (500, "❌ Error while triggering daily report: boom") :=
  ⟨c9_http_trigger.1, (c9_http_trigger.2 "boom").1⟩

/-- Claim C10: `send_report` prepends the warning paragraph (which embeds
the correlation ID) exactly when the body is empty or its stripped length
is below 50; otherwise the final body is exactly the rendered body
followed by the cost footer. -/
theorem c10_send_report_body (body : String) (p c : Nat) (cost : ℚ) (cid : String) :
    ((body = "" ∨ (pyStrip body).length < 50) →
        final_email_body body p c cost cid =
          empty_warning_str cid ++ body ++ cost_note_str p c cost cid) ∧
    (body ≠ "" → ¬ (pyStrip body).length < 50 →
        final_email_body body p c cost cid = body ++ cost_note_str p c cost cid) ∧
    (∃ pre suf : String, empty_warning_str cid = pre ++ cid ++ suf) := by
  refine ⟨fun h => ?_, fun h1 h2 => ?_, ?_⟩
  · rcases h with h | h <;> simp [final_email_body, h]
  · simp [final_email_body, h1, h2, string_empty_append]
  · exact ⟨"<p style=\x27color:red;font-weight:bold\x27>⚠️ Raport może być niepełny. Sprawdź logi w Application Insights dla ID: ", "</p>", rfl⟩

/-- Claim C10 witness: an empty body receives the warning; a long body is
passed through with only the footer appended. -/
theorem c10_witness :
    final_email_body "" 3 4 0 "cid123" =
      empty_warning_str "cid123" ++ "" ++ cost_note_str 3 4 0 "cid123" ∧
    final_email_body "xxxxxxxxxxxxxxxxxxxxxxxxxxxxxxxxxxxxxxxxxxxxxxxxxxxxxxxxxxxx" 3 4 0 "cid123" =
      "xxxxxxxxxxxxxxxxxxxxxxxxxxxxxxxxxxxxxxxxxxxxxxxxxxxxxxxxxxxx" ++ cost_note_str 3 4 0 "cid123" :=
  ⟨(c10_send_report_body "" 3 4 0 "cid123").1 (Or.inl rfl),
   (c10_send_report_body "xxxxxxxxxxxxxxxxxxxxxxxxxxxxxxxxxxxxxxxxxxxxxxxxxxxxxxxxxxxx" 3 4 0 "cid123").2.1
     (by decide) (by decide)⟩

theorem toList_mk (l : List Char) : (String.mk l).toList = l := rfl

theorem mk_toList (s : String) : String.mk s.toList = s := rfl

theorem toList_append (a b : String) : (a ++ b).toList = a.toList ++ b.toList :=
  String.data_append a b

theorem stripL_eq_rdrop (l : List Char) :
    stripL l = (l.dropWhile isWS).rdropWhile isWS := rfl

theorem dropWhile_rdropWhile_self {α : Type} {p : α → Bool} {d : List α}
    (h : List.dropWhile p d = d) :
    List.dropWhile p (d.rdropWhile p) = d.rdropWhile p := by
  rcases hE : d.rdropWhile p with _ | ⟨a, t⟩
  · rfl
  · obtain ⟨s, hs⟩ := List.rdropWhile_prefix p d
    rw [hE] at hs
    have ha : p a = false := by
      cases hp : p a
      · rfl
      · exfalso
        rw [← hs, List.cons_append, List.dropWhile_cons_of_pos hp] at h
        have hsuf := List.dropWhile_suffix (l := t ++ s) p
        rw [h] at hsuf
        have hle : (t ++ s).length + 1 ≤ (t ++ s).length := by
          simpa using hsuf.length_le
        omega
    rw [List.dropWhile_cons_of_neg (by simp [ha])]

theorem stripL_idem (l : List Char) : stripL (stripL l) = stripL l := by
  rw [stripL_eq_rdrop, stripL_eq_rdrop,
    dropWhile_rdropWhile_self (List.dropWhile_idempotent isWS l),
    List.rdropWhile_idempotent]

theorem stripL_cons_ws (c : Char) (l : List Char) (h : isWS c = true) :
    stripL (c :: l) = stripL l := by
  rw [stripL_eq_rdrop, stripL_eq_rdrop, List.dropWhile_cons_of_pos h]

theorem stripL_snoc_ws (c : Char) (l : List Char) (h : isWS c = true) :
    stripL (l ++ [c]) = stripL l := by
  rw [stripL_eq_rdrop, stripL_eq_rdrop, List.dropWhile_append]
  cases hE : (List.dropWhile isWS l).isEmpty
  · simp only [hE, Bool.false_eq_true, if_false]
    rw [List.rdropWhile_concat_pos _ _ _ h]
  · simp only [hE, if_true]
    rw [List.isEmpty_iff] at hE
    rw [hE, List.dropWhile_cons_of_pos h]
    rfl

theorem pyStrip_toList (s : String) : (pyStrip s).toList = stripL s.toList := rfl

theorem json_loads_strip (s : String) : json_loads (pyStrip s) = json_loads s := by
  unfold json_loads
  rw [pyStrip_toList, stripL_idem]

theorem parseValue_backtick (f : Nat) (cs rest : List Char)
    (h : skipWS cs = '\x60' :: rest) : parseValue f cs = Option.none := by
  cases f with
  | zero => rfl
  | succ f =>
    rw [parseValue, h]
    rfl

theorem json_loads_backtick (t : String) (h : pyStartsWith (pyStrip t) "```" = true) :
    json_loads t = Option.none := by
  have h2 : ∃ rest, stripL t.toList = '\x60' :: rest := by
    rw [pyStartsWith, List.isPrefixOf_iff_prefix] at h
    obtain ⟨rest, hr⟩ := h
    rw [pyStrip_toList] at hr
    exact ⟨'\x60' :: '\x60' :: rest, by rw [← hr]; rfl⟩
  obtain ⟨rest, hr⟩ := h2
  unfold json_loads
  rw [hr]
  have hnone := parseValue_backtick (('\x60' :: rest).length + 1) ('\x60' :: rest) rest rfl
  rw [hnone]

theorem parse_result_valid (t : String) (v : PyVal) (h : json_loads t = some v) :
    parse_result_to_json t = v := by
  have hb : pyStartsWith (pyStrip t) "```" = false := by
    cases hE : pyStartsWith (pyStrip t) "```"
    · rfl
    · rw [json_loads_backtick t hE] at h
      exact Option.noConfusion h
  unfold parse_result_to_json strip_fences
  rw [hb]
  simp only [Bool.false_eq_true, if_false, h]

/-- Claim C3 (counterexample): valid JSON that is not an object is returned
as-is, so the parser's result is not always a dict. -/
theorem c3_counterexample :
    parse_result_to_json "[1, 2]" = PyVal.list [PyVal.int 1, PyVal.int 2] ∧
    isDict (PyVal.list [PyVal.int 1, PyVal.int 2]) = false :=
  ⟨rfl, rfl⟩

/-- Claim C3 (amended): for every string that is valid JSON,
`parse_result_to_json` returns exactly the parsed value — which may be of
any JSON type (dict, list, number, string, boolean, null), not only a
dict; on any parse failure it returns the empty dict. -/
theorem c3_parse_contract (t : String) (v : PyVal) (h : json_loads t = some v) :
    parse_result_to_json t = v :=
  parse_result_valid t v h

/-- Claim C3 witness: `"[1, 2]"` parses to the corresponding list. -/
theorem c3_witness :
    json_loads "[1, 2]" = some (PyVal.list [PyVal.int 1, PyVal.int 2]) ∧
    parse_result_to_json "[1, 2]" = PyVal.list [PyVal.int 1, PyVal.int 2] :=
  ⟨rfl, c3_parse_contract "[1, 2]" (PyVal.list [PyVal.int 1, PyVal.int 2]) rfl⟩

/-- Claim C4 (counterexample): a fenced valid-JSON block is itself not
valid JSON, yet the parser returns the fenced content's parse, not the
empty object. -/
theorem c4_counterexample :
    json_loads "```json\n1\n```" = Option.none ∧
    parse_result_to_json "```json\n1\n```" = PyVal.int 1 ∧
    PyVal.int 1 ≠ PyVal.dict [] :=
  ⟨rfl, rfl, fun h => PyVal.noConfusion h⟩

/-- Claim C4 (amended): for every string whose fence-stripped text is not
valid JSON — including whitespace-only text and `"not json"` — the parser
returns the empty object `{}`; being a total function, it raises nothing
past its boundary. -/
theorem c4_parse_failure (s : String)
    (h : json_loads (strip_fences s) = Option.none) :
    parse_result_to_json s = PyVal.dict [] ∧
    parse_result_to_json "   " = PyVal.dict [] ∧
    parse_result_to_json "not json" = PyVal.dict [] := by
  refine ⟨?_, rfl, rfl⟩
  unfold parse_result_to_json
  rw [h]

/-- Claim C4 witness: `"not json"` fails to parse and yields `{}`. -/
theorem c4_witness :
    json_loads (strip_fences "not json") = Option.none ∧
    parse_result_to_json "not json" = PyVal.dict [] :=
  ⟨rfl, (c4_parse_failure "not json" rfl).1⟩

theorem fenced_toList (t : String) :
    (fenced t).toList =
      '\x60' :: '\x60' :: '\x60' :: 'j' :: 's' :: 'o' :: 'n' :: Char.ofNat 10 ::
        (t.toList ++ (Char.ofNat 10 :: '\x60' :: '\x60' :: '\x60' :: [])) := by
  rw [fenced, toList_append, toList_append]
  have hA : "```json\n".toList =
      '\x60' :: '\x60' :: '\x60' :: 'j' :: 's' :: 'o' :: 'n' :: Char.ofNat 10 :: [] := rfl
  have hB : "\n```".toList = Char.ofNat 10 :: '\x60' :: '\x60' :: '\x60' :: [] := rfl
  rw [hA, hB]
  simp [List.cons_append, List.append_assoc]

theorem pyStrip_fenced (t : String) : pyStrip (fenced t) = fenced t := by
  unfold pyStrip
  have hs : stripL (fenced t).toList = (fenced t).toList := by
    rw [fenced_toList, stripL_eq_rdrop, List.dropWhile_cons_of_neg (by decide)]
    have hsnoc :
        '\x60' :: '\x60' :: '\x60' :: 'j' :: 's' :: 'o' :: 'n' :: Char.ofNat 10 ::
            (t.toList ++ (Char.ofNat 10 :: '\x60' :: '\x60' :: '\x60' :: [])) =
          ('\x60' :: '\x60' :: '\x60' :: 'j' :: 's' :: 'o' :: 'n' :: Char.ofNat 10 ::
            (t.toList ++ (Char.ofNat 10 :: '\x60' :: '\x60' :: []))) ++ ['\x60'] := by
      simp [List.cons_append, List.append_assoc]
    rw [hsnoc, List.rdropWhile_concat_neg _ _ _ (by decide)]
  rw [hs, mk_toList]

theorem fenced_starts3 (t : String) : pyStartsWith (fenced t) "```" = true := by
  rw [pyStartsWith, fenced_toList]
  simp [List.isPrefixOf]

theorem fenced_starts7 (t : String) : pyStartsWith (fenced t) "```json" = true := by
  rw [pyStartsWith, fenced_toList]
  simp [List.isPrefixOf]

theorem fenced_drop7 (t : String) :
    pyDrop (fenced t) 7 =
      String.mk (Char.ofNat 10 ::
        (t.toList ++ (Char.ofNat 10 :: '\x60' :: '\x60' :: '\x60' :: []))) := by
  rw [pyDrop, fenced_toList]
  rfl

theorem fenced_ends (t : String) :
    pyEndsWith (String.mk (Char.ofNat 10 ::
      (t.toList ++ (Char.ofNat 10 :: '\x60' :: '\x60' :: '\x60' :: [])))) "```" = true := by
  rw [pyEndsWith, toList_mk]
  show List.isSuffixOf _ _ = true
  unfold List.isSuffixOf
  simp [List.reverse_cons, List.reverse_append, List.isPrefixOf]

theorem fenced_dropLast (t : String) :
    pyDropLast (String.mk (Char.ofNat 10 ::
        (t.toList ++ (Char.ofNat 10 :: '\x60' :: '\x60' :: '\x60' :: [])))) 3 =
      String.mk (Char.ofNat 10 :: (t.toList ++ [Char.ofNat 10])) := by
  rw [pyDropLast, toList_mk]
  have hsh :
      Char.ofNat 10 :: (t.toList ++ (Char.ofNat 10 :: '\x60' :: '\x60' :: '\x60' :: [])) =
        (Char.ofNat 10 :: (t.toList ++ [Char.ofNat 10])) ++ ['\x60', '\x60', '\x60'] := by
    simp [List.cons_append, List.append_assoc]
  rw [hsh]
  have hlen :
      ((Char.ofNat 10 :: (t.toList ++ [Char.ofNat 10])) ++ ['\x60', '\x60', '\x60']).length - 3 =
        (Char.ofNat 10 :: (t.toList ++ [Char.ofNat 10])).length := by
    simp
  rw [hlen, List.take_left]

theorem strip_fences_fenced (t : String) : strip_fences (fenced t) = pyStrip t := by
  unfold strip_fences
  rw [pyStrip_fenced, fenced_starts3]
  simp only [if_true]
  rw [strip_leading_fence, fenced_starts7]
  simp only [if_true]
  rw [fenced_drop7, strip_trailing_fence, fenced_ends]
  simp only [if_true]
  rw [fenced_dropLast]
  unfold pyStrip
  rw [toList_mk, stripL_cons_ws _ _ (by decide), stripL_snoc_ws _ _ (by decide)]

/-- Claim C7: wrapping any valid JSON text in a ```` ```json ```` fence
and parsing yields the same structure as parsing the unfenced text. -/
theorem c7_fenced_roundtrip (t : String) (v : PyVal) (h : json_loads t = some v) :
    parse_result_to_json (fenced t) = parse_result_to_json t := by
  have h2 : json_loads (strip_fences (fenced t)) = some v := by
    rw [strip_fences_fenced, json_loads_strip, h]
  have hL : parse_result_to_json (fenced t) = v := by
    unfold parse_result_to_json
    rw [h2]
  rw [hL, parse_result_valid t v h]

/-- Claim C7 witness: the fenced and unfenced parses of `"[1]"` agree. -/
theorem c7_witness :
    json_loads "[1]" = some (PyVal.list [PyVal.int 1]) ∧
    parse_result_to_json (fenced "[1]") = parse_result_to_json "[1]" :=
  ⟨rfl, c7_fenced_roundtrip "[1]" (PyVal.list [PyVal.int 1]) rfl⟩

theorem not_header_ul : isCatHeader "<ul>" = false := rfl

theorem not_header_ul_close : isCatHeader "</ul>" = false := rfl

theorem not_header_h2 : isCatHeader "<h2>📌 Rekomendacje na dziś</h2>" = false := rfl

theorem not_header_hr_h2 : isCatHeader "<hr><h2>📊 Analiza spółek</h2>" = false := rfl

theorem not_header_point (p : PyVal) : isCatHeader ("<li>" ++ pyStr p ++ "</li>") = false := rfl

theorem not_header_notes (v : PyVal) : isCatHeader (notes_block v) = false := rfl

theorem header_cat_header (cat : String × String × String) : isCatHeader (cat_header cat) = true := rfl

theorem render_rec_line_ok (rec : PyVal) (h : isDict rec = true) :
    ∃ r, render_rec_line rec = Except.ok r ∧ isCatHeader r = false := by
  rcases rec with _ | b | n | q | s | xs | kvs <;> simp [isDict] at h
  exact ⟨_, rfl, rfl⟩

theorem render_rec_items_ok (items : List PyVal) (h : items.all isDict = true) :
    ∃ ls, render_rec_items items = Except.ok ls ∧ ∀ l ∈ ls, isCatHeader l = false := by
  induction items with
  | nil => exact ⟨[], rfl, by simp⟩
  | cons rec rest ih =>
    simp only [List.all_cons, Bool.and_eq_true] at h
    obtain ⟨r, hr, hrh⟩ := render_rec_line_ok rec h.1
    obtain ⟨ls, hls, hlsh⟩ := ih h.2
    refine ⟨r :: ls, ?_, ?_⟩
    · simp only [render_rec_items, hr, hls]
    · intro l hl
      rcases List.mem_cons.mp hl with rfl | hl
      · exact hrh
      · exact hlsh l hl

theorem recListOK_elim (v : PyVal) (h : recListOK v = true) :
    ∃ xs, v = PyVal.list xs ∧ xs.all isDict = true := by
  rcases v with _ | b | n | q | s | xs | kvs <;> simp [recListOK] at h
  exact ⟨_, rfl, by simpa [List.all_eq_true] using h⟩

theorem analysisOK_elim (v : PyVal) (h : analysisOK v = true) :
    ∃ xs, v = PyVal.list xs ∧ xs.all stockOK = true := by
  rcases v with _ | b | n | q | s | xs | kvs <;> simp [analysisOK] at h
  exact ⟨_, rfl, by simpa [List.all_eq_true] using h⟩

theorem recsOK_items (rs : List (String × PyVal)) (h : recsOK (PyVal.dict rs) = true)
    (k : String) : recListOK ((dictGet rs k).getD (PyVal.list [])) = true := by
  rcases hg : dictGet rs k with _ | v
  · rfl
  · simp only [Option.getD_some]
    unfold dictGet at hg
    rcases hf : rs.reverse.find? (fun kv => kv.1 == k) with _ | kv
    · rw [hf] at hg
      exact Option.noConfusion hg
    · rw [hf] at hg
      simp at hg
      have hmem : kv ∈ rs := List.mem_reverse.mp (List.mem_of_find?_eq_some hf)
      simp only [recsOK, List.all_eq_true] at h
      rw [← hg]
      exact h kv hmem

theorem stock_lines_ok (stock : PyVal) (h : stockOK stock = true) :
    ∃ ls, stock_lines stock = Except.ok ls ∧ ∀ l ∈ ls, isCatHeader l = false := by
  rcases stock with _ | b | n | q | s | xs | skvs
  case none => exact absurd h (by simp [stockOK])
  case bool => exact absurd h (by simp [stockOK])
  case int => exact absurd h (by simp [stockOK])
  case float => exact absurd h (by simp [stockOK])
  case str => exact absurd h (by simp [stockOK])
  case list => exact absurd h (by simp [stockOK])
  simp only [stockOK] at h
  have hlist : ∃ ps, (dictGet skvs "highlights").getD (PyVal.list []) = PyVal.list ps := by
    rcases hg : dictGet skvs "highlights" with _ | v
    · exact ⟨[], rfl⟩
    · rw [hg] at h
      rcases v with _ | b | n | q | s | xs | kvs
      case list => exact ⟨xs, by simp⟩
      all_goals simp at h
  obtain ⟨ps, hps⟩ := hlist
  have hls : stock_lines (PyVal.dict skvs) = Except.ok
      (("<h3><b>" ++ pyStr ((dictGet skvs "company").getD PyVal.none) ++ "</b> <i>(" ++
          pyStr ((dictGet skvs "symbol").getD PyVal.none) ++ ")</i></h3>") :: "<ul>" ::
        (ps.map (fun point => "<li>" ++ pyStr point ++ "</li>") ++ ["</ul>"])) := by
    unfold stock_lines
    simp only [pyGet1, pyGetD, hps, pyIter]
  refine ⟨_, hls, ?_⟩
  intro l hl
  simp only [List.mem_cons, List.mem_append, List.mem_map, List.mem_singleton] at hl
  rcases hl with rfl | rfl | ⟨⟨p, hp, rfl⟩ | (rfl | hfalse)⟩
  · rfl
  · rfl
  · exact not_header_point p
  · rfl
  · exact absurd hfalse (List.not_mem_nil l)

theorem render_analysis_ok (stocks : List PyVal) (h : stocks.all stockOK = true) :
    ∃ ls, render_analysis stocks = Except.ok ls ∧ ∀ l ∈ ls, isCatHeader l = false := by
  induction stocks with
  | nil => exact ⟨[], rfl, by simp⟩
  | cons stock rest ih =>
    simp only [List.all_cons, Bool.and_eq_true] at h
    obtain ⟨ls, hls, hlsh⟩ := stock_lines_ok stock h.1
    obtain ⟨more, hmore, hmoreh⟩ := ih h.2
    refine ⟨ls ++ more, ?_, ?_⟩
    · simp only [render_analysis, hls, hmore]
    · intro l hl
      rcases List.mem_append.mp hl with hl | hl
      · exact hlsh l hl
      · exact hmoreh l hl

theorem filter_headers_nil (ls : List String) (h : ∀ l ∈ ls, isCatHeader l = false) :
    ls.filter isCatHeader = [] := by
  induction ls with
  | nil => rfl
  | cons a as ih =>
    rw [List.filter_cons, h a (List.mem_cons_self a as)]
    simp only [Bool.false_eq_true, if_false]
    exact ih (fun l hl => h l (List.mem_cons_of_mem a hl))

theorem schemaOK_recs (kvs : List (String × PyVal)) (h : schemaOK (PyVal.dict kvs) = true) :
    recsOK ((dictGet kvs "recommendations").getD (PyVal.dict [])) = true := by
  simp only [schemaOK, Bool.and_eq_true] at h
  rcases hg : dictGet kvs "recommendations" with _ | v
  · rfl
  · rw [hg] at h
    simpa using h.1

theorem schemaOK_analysis (kvs : List (String × PyVal)) (h : schemaOK (PyVal.dict kvs) = true) :
    analysisOK ((dictGet kvs "analysis").getD (PyVal.list [])) = true := by
  simp only [schemaOK, Bool.and_eq_true] at h
  rcases hg : dictGet kvs "analysis" with _ | v
  · rfl
  · rw [hg] at h
    simpa using h.2

theorem recsOK_elim (v : PyVal) (h : recsOK v = true) :
    ∃ rs, v = PyVal.dict rs ∧ recsOK (PyVal.dict rs) = true := by
  rcases v with _ | b | n | q | s | xs | kvs
  case dict => exact ⟨kvs, rfl, h⟩
  all_goals exact absurd h (by simp [recsOK])

theorem render_category_spec (kvs : List (String × PyVal))
    (h : schemaOK (PyVal.dict kvs) = true) (cat : String × String × String) :
    ∃ ls, render_category (PyVal.dict kvs) cat = Except.ok ls ∧
      ls.filter isCatHeader =
        (if pyTruthy (category_items (PyVal.dict kvs) cat.1) then [cat_header cat] else []) := by
  obtain ⟨rs, hrs, hrsOK⟩ := recsOK_elim _ (schemaOK_recs kvs h)
  obtain ⟨xs, hxs, hxsOK⟩ := recListOK_elim _ (recsOK_items rs hrsOK cat.1)
  have hci : category_items (PyVal.dict kvs) cat.1 = PyVal.list xs := by
    have e1 : category_items (PyVal.dict kvs) cat.1 =
        (match (dictGet kvs "recommendations").getD (PyVal.dict []) with
         | PyVal.dict rs => (dictGet rs cat.1).getD (PyVal.list [])
         | _ => PyVal.list []) := rfl
    rw [e1, hrs]
    exact hxs
  unfold render_category
  simp only [pyGetD, hrs, hxs, hci]
  cases hxe : xs.isEmpty
  · -- nonempty list: the subsection is emitted
    obtain ⟨ls, hls, hlsh⟩ := render_rec_items_ok xs hxsOK
    simp only [pyTruthy, hxe, Bool.not_false, if_true, pyIter, hls]
    refine ⟨_, rfl, ?_⟩
    rw [List.filter_cons, header_cat_header]
    simp only [if_true]
    rw [List.filter_cons, not_header_ul]
    simp only [Bool.false_eq_true, if_false]
    rw [List.filter_append, filter_headers_nil ls hlsh]
    simp [not_header_ul_close]
  · -- empty list: no subsection
    simp only [pyTruthy, hxe, Bool.not_true, Bool.false_eq_true, if_false]
    exact ⟨[], rfl, rfl⟩

theorem render_categories_spec (kvs : List (String × PyVal))
    (h : schemaOK (PyVal.dict kvs) = true) (cats : List (String × String × String)) :
    ∃ L, render_categories (PyVal.dict kvs) cats = Except.ok L ∧
      L.filter isCatHeader =
        (cats.filter (fun c => pyTruthy (category_items (PyVal.dict kvs) c.1))).map cat_header := by
  induction cats with
  | nil => exact ⟨[], rfl, rfl⟩
  | cons c rest ih =>
    obtain ⟨ls, hls, hlsF⟩ := render_category_spec kvs h c
    obtain ⟨L, hL, hLF⟩ := ih
    refine ⟨ls ++ L, ?_, ?_⟩
    · simp only [render_categories, hls, hL]
    · rw [List.filter_append, hlsF, hLF, List.filter_cons]
      cases hc : pyTruthy (category_items (PyVal.dict kvs) c.1)
      · simp
      · simp

theorem render_html_lines_spec (kvs : List (String × PyVal))
    (h : schemaOK (PyVal.dict kvs) = true) (ht : pyTruthy (PyVal.dict kvs) = true) :
    ∃ L, render_html_lines (PyVal.dict kvs) = Except.ok L ∧
      L.filter isCatHeader =
        (category_table.filter
          (fun c => pyTruthy (category_items (PyVal.dict kvs) c.1))).map cat_header := by
  obtain ⟨recL, hrecL, hrecF⟩ := render_categories_spec kvs h category_table
  obtain ⟨stocks, hstocks, hstocksOK⟩ := analysisOK_elim _ (schemaOK_analysis kvs h)
  obtain ⟨anaL, hanaL, hanaH⟩ := render_analysis_ok stocks hstocksOK
  have hcond : (!pyTruthy (PyVal.dict kvs) || !isDict (PyVal.dict kvs)) = false := by
    rw [ht]
    rfl
  have hfL : ∀ notesLines : List String, (∀ l ∈ notesLines, isCatHeader l = false) →
      ("<h2>📌 Rekomendacje na dziś</h2>" :: recL ++ "<hr><h2>📊 Analiza spółek</h2>" :: anaL
          ++ notesLines).filter isCatHeader = recL.filter isCatHeader := by
    intro notesLines hnl
    rw [List.filter_append, List.filter_append, List.filter_cons, List.filter_cons,
      not_header_h2, not_header_hr_h2]
    simp only [Bool.false_eq_true, if_false]
    rw [filter_headers_nil anaL hanaH, filter_headers_nil notesLines hnl]
    simp
  have hnotes : ∀ l ∈ (if pyTruthy ((dictGet kvs "notes").getD PyVal.none) = true
      then [notes_block ((dictGet kvs "notes").getD PyVal.none)] else []),
      isCatHeader l = false := by
    cases hn : pyTruthy ((dictGet kvs "notes").getD PyVal.none)
    · simp
    · simp only [if_true]
      intro l hl
      rw [List.mem_singleton.mp hl]
      exact not_header_notes _
  unfold render_html_lines
  rw [hcond]
  simp only [Bool.false_eq_true, if_false, hrecL, pyGetD, hstocks, pyIter, hanaL, pyGet1]
  refine ⟨_, rfl, ?_⟩
  rw [hfL _ hnotes, hrecF]

theorem render_guard (d : PyVal) (h : pyTruthy d = false ∨ isDict d = false) :
    render_html_report d = Except.ok error_notice := by
  rcases h with h | h <;>
    simp [render_html_report, render_html_lines, h] <;> rfl

theorem schemaOK_dict (data : PyVal) (h : schemaOK data = true) :
    ∃ kvs, data = PyVal.dict kvs := by
  rcases data with _ | b | n | q | s | xs | kvs
  case dict => exact ⟨kvs, rfl⟩
  all_goals exact absurd h (by simp [schemaOK])

/-- Claim C2 (counterexample): a dict whose `recommendations` field is a
string makes the renderer raise `AttributeError`
(`"x".get("buy", [])` has no such attribute), so it does not hold for
every structured object. -/
theorem c2_counterexample :
    render_html_report (PyVal.dict [("recommendations", PyVal.str "x")]) =
      Except.error PyErr.attributeError := rfl

/-- Claim C2 (amended): the renderer returns an HTML string and raises no
exception for every empty or non-dict input and for every dict whose
`recommendations`/`analysis` fields conform to the documented schema; a
dict whose nested fields have unexpected shapes can raise. -/
theorem c2_render_safety (data : PyVal)
    (h : schemaOK data = true ∨ pyTruthy data = false ∨ isDict data = false) :
    (render_html_report data).isOk = true := by
  rcases h with h | h | h
  · obtain ⟨kvs, rfl⟩ := schemaOK_dict data h
    cases ht : pyTruthy (PyVal.dict kvs)
    · rw [render_guard _ (Or.inl ht)]
      rfl
    · obtain ⟨L, hL, _⟩ := render_html_lines_spec kvs h ht
      unfold render_html_report
      rw [hL]
      rfl
  · rw [render_guard _ (Or.inl h)]
    rfl
  · rw [render_guard _ (Or.inr h)]
    rfl

/-- Claim C2 witness: a schema-conforming dict renders without raising. -/
theorem c2_witness :
    schemaOK (PyVal.dict [("notes", PyVal.str "ok")]) = true ∧
    (render_html_report (PyVal.dict [("notes", PyVal.str "ok")])).isOk = true :=
  ⟨rfl, c2_render_safety (PyVal.dict [("notes", PyVal.str "ok")]) (Or.inl rfl)⟩

/-- Claim C6: for every well-formed (schema-conforming, non-empty) input
dict, the renderer emits exactly one recommendation subsection heading per
category whose list is non-empty, in the fixed order of `category_table`
(buy, buy-new, sell, hold), and none for a category whose list is empty or
absent; `render_html_report` is the join of those lines. -/
theorem c6_category_subsections (data : PyVal) (h : schemaOK data = true)
    (ht : pyTruthy data = true) :
    (render_html_lines data).map (fun L => L.filter isCatHeader) =
      Except.ok ((category_table.filter
        (fun c => pyTruthy (category_items data c.1))).map cat_header) ∧
    render_html_report data =
      (render_html_lines data).map (fun L => "\n".intercalate L) := by
  obtain ⟨kvs, rfl⟩ := schemaOK_dict data h
  obtain ⟨L, hL, hF⟩ := render_html_lines_spec kvs h ht
  constructor
  · rw [hL]
    show Except.ok (L.filter isCatHeader) = _
    rw [hF]
  · unfold render_html_report
    rw [hL]
    rfl

/-- Claim C6 witness: a report with one `buy` entry and an empty `sell`
list yields exactly the single buy subsection heading. -/
theorem c6_witness :
    (render_html_lines (PyVal.dict [("recommendations", PyVal.dict
        [("buy", PyVal.list [PyVal.dict []]), ("sell", PyVal.list [])])])).map
        (fun L => L.filter isCatHeader) =
      Except.ok ((category_table.filter
        (fun c => pyTruthy (category_items (PyVal.dict [("recommendations", PyVal.dict
          [("buy", PyVal.list [PyVal.dict []]), ("sell", PyVal.list [])])]) c.1))).map cat_header) ∧
    (category_table.filter
        (fun c => pyTruthy (category_items (PyVal.dict [("recommendations", PyVal.dict
          [("buy", PyVal.list [PyVal.dict []]), ("sell", PyVal.list [])])]) c.1))).map cat_header =
      [cat_header ("buy", "✅ Dokupienie", "green")] :=
  ⟨(c6_category_subsections (PyVal.dict [("recommendations", PyVal.dict
      [("buy", PyVal.list [PyVal.dict []]), ("sell", PyVal.list [])])]) rfl rfl).1, rfl⟩
